import Mathlib

/-
  Verification of the Image-to-Text repository core:
  audio codec (WAV container builder, PCM16 decoding), voice
  recommendation, the playback controller, and the workflow
  state machine of the App component.

  Byte buffers are modelled as `List Nat` (each element a byte value),
  16-bit samples as `Int`, normalized samples as `ℚ` (every value
  `s / 32768.0` with `|s| ≤ 32768` is exact in binary floating point,
  so rational arithmetic models the JavaScript number semantics of the
  decoder without loss).
-/

/-! ## Audio codec: WAV container (createWavBlob, ResultDisplay.tsx) -/

/-- Little-endian byte serialization of a 16-bit field, as written by
`DataView.setUint16(off, v, true)` (the stored value is `v mod 2^16`). -/
def u16LE (v : Nat) : List Nat :=
  [v % 256, v / 256 % 256]

/-- Little-endian byte serialization of a 32-bit field, as written by
`DataView.setUint32(off, v, true)` (the stored value is `v mod 2^32`). -/
def u32LE (v : Nat) : List Nat :=
  [v % 256, v / 256 % 256, v / 65536 % 256, v / 16777216 % 256]

/-- Big-endian byte serialization of a 32-bit field, as written by
`DataView.setUint32(off, v, false)`; used for the ASCII chunk tags. -/
def u32BE (v : Nat) : List Nat :=
  [v / 16777216 % 256, v / 65536 % 256, v / 256 % 256, v % 256]

/-- Embedding of `createWavBlob` (ResultDisplay.tsx): a 44-byte canonical
RIFF/WAVE header followed by the PCM data verbatim.  Field offsets and
values follow the source's `DataView` writes in order. -/
def createWavBlob (pcmData : List Nat) (numChannels sampleRate bitsPerSample : Nat) : List Nat :=
  u32BE 0x52494646 ++
  u32LE (36 + pcmData.length) ++
  u32BE 0x57415645 ++
  u32BE 0x666d7420 ++
  u32LE 16 ++
  u16LE 1 ++
  u16LE numChannels ++
  u32LE sampleRate ++
  u32LE (sampleRate * (numChannels * (bitsPerSample / 8))) ++
  u16LE (numChannels * (bitsPerSample / 8)) ++
  u16LE bitsPerSample ++
  u32BE 0x64617461 ++
  u32LE pcmData.length ++
  pcmData

/-- Little-endian 32-bit read at a byte offset (how a WAV reader decodes
the ChunkSize field at bytes 4..7). -/
def readU32LE (l : List Nat) (off : Nat) : Nat :=
  match l.drop off with
  | b0 :: b1 :: b2 :: b3 :: _ => b0 + 256 * b1 + 65536 * b2 + 16777216 * b3
  | _ => 0

/-! ## Audio codec: PCM16 decoding (decodeAudioData, ResultDisplay.tsx) -/

/-- One little-endian signed 16-bit sample from a byte pair, as read by
`Int16Array` on a little-endian platform. -/
def int16OfPair (lo hi : Nat) : Int :=
  let u := lo + 256 * hi
  if u < 32768 then (u : Int) else (u : Int) - 65536

/-- Normalization performed by `decodeAudioData`: `dataInt16[i] / 32768.0`.
Exact in IEEE arithmetic for `|s| ≤ 32768`, hence modelled in `ℚ`. -/
def normalizeSample (s : Int) : ℚ := (s : ℚ) / 32768

/-- The concrete byte layout of the mono / 24 kHz / 16-bit WAV container
actually produced by the system (`createWavBlob(pcm, 1, 24000, 16)`). -/
lemma createWavBlob_eq (b : List Nat) :
    createWavBlob b 1 24000 16 =
      82 :: 73 :: 70 :: 70 ::
      ((36 + b.length) % 256) :: ((36 + b.length) / 256 % 256) ::
      ((36 + b.length) / 65536 % 256) :: ((36 + b.length) / 16777216 % 256) ::
      87 :: 65 :: 86 :: 69 ::
      102 :: 109 :: 116 :: 32 ::
      16 :: 0 :: 0 :: 0 ::
      1 :: 0 ::
      1 :: 0 ::
      192 :: 93 :: 0 :: 0 ::
      128 :: 187 :: 0 :: 0 ::
      2 :: 0 ::
      16 :: 0 ::
      100 :: 97 :: 116 :: 97 ::
      (b.length % 256) :: (b.length / 256 % 256) ::
      (b.length / 65536 % 256) :: (b.length / 16777216 % 256) :: b := by
  simp [createWavBlob, u32BE, u32LE, u16LE]

/-- The ChunkSize field actually stored by the builder: the `setUint32`
write keeps only the value mod 2^32. -/
lemma readU32LE_wav (b : List Nat) :
    readU32LE (createWavBlob b 1 24000 16) 4 = (36 + b.length) % 4294967296 := by
  rw [createWavBlob_eq]
  show (36 + b.length) % 256 + 256 * ((36 + b.length) / 256 % 256) +
    65536 * ((36 + b.length) / 65536 % 256) +
    16777216 * ((36 + b.length) / 16777216 % 256) = (36 + b.length) % 4294967296
  omega

/-- C1 counterexample: on the non-empty even-length buffer of 2^32 zero
bytes, the `setUint32` ChunkSize write wraps mod 2^32 and stores 36, so
the field does not equal 36 + len(b). -/
theorem createWavBlob_chunkSize_wraps :
    (List.replicate 4294967296 (0 : Nat)) ≠ [] ∧
    (List.replicate 4294967296 (0 : Nat)).length % 2 = 0 ∧
    readU32LE (createWavBlob (List.replicate 4294967296 (0 : Nat)) 1 24000 16) 4 = 36 ∧
    36 + (List.replicate 4294967296 (0 : Nat)).length ≠ 36 := by
  have hlen : (List.replicate 4294967296 (0 : Nat)).length = 4294967296 :=
    List.length_replicate 4294967296 0
  refine ⟨?_, ?_, ?_, ?_⟩
  · intro h
    rw [h] at hlen
    exact absurd hlen (by decide)
  · rw [hlen]
  · rw [readU32LE_wav, hlen]
  · rw [hlen]
    decide

/-- C1 (amended): the WAV binary has length 44 + len(b), its ChunkSize
field (bytes 4..7, little-endian) is (36 + len(b)) mod 2^32 — equal to
36 + len(b) whenever that fits in 32 bits — and bytes 44.. are b. -/
theorem createWavBlob_spec (b : List Nat) (hne : b ≠ []) (hev : b.length % 2 = 0) :
    (createWavBlob b 1 24000 16).length = 44 + b.length ∧
    readU32LE (createWavBlob b 1 24000 16) 4 = (36 + b.length) % 4294967296 ∧
    (createWavBlob b 1 24000 16).drop 44 = b := by
  refine ⟨?_, readU32LE_wav b, ?_⟩
  · rw [createWavBlob_eq]
    simp
    omega
  · rw [createWavBlob_eq]
    rfl

theorem createWavBlob_spec_witness :
    ([7, 9] : List Nat) ≠ [] ∧
    ((createWavBlob [7, 9] 1 24000 16).length = 46 ∧
      readU32LE (createWavBlob [7, 9] 1 24000 16) 4 = 38 ∧
      (createWavBlob [7, 9] 1 24000 16).drop 44 = [7, 9]) := by
  refine ⟨by decide, ?_⟩
  have h := createWavBlob_spec [7, 9] (by decide) (by decide)
  exact h

/-- C6: each decoded 16-bit sample `s` normalizes to exactly `s / 32768`
(exact in IEEE arithmetic since `|s| ≤ 32768`), the value lies in
`[-1, 1)`, and `-1` is attained exactly at `s = -32768`. -/
theorem sample_normalization (lo hi : Nat) (hlo : lo < 256) (hhi : hi < 256) :
    normalizeSample (int16OfPair lo hi) = (int16OfPair lo hi : ℚ) / 32768 ∧
    -1 ≤ normalizeSample (int16OfPair lo hi) ∧
    normalizeSample (int16OfPair lo hi) < 1 ∧
    (normalizeSample (int16OfPair lo hi) = -1 ↔ int16OfPair lo hi = -32768) := by
  have hb : -32768 ≤ int16OfPair lo hi ∧ int16OfPair lo hi ≤ 32767 := by
    simp only [int16OfPair]
    split <;> omega
  refine ⟨rfl, ?_, ?_, ?_⟩
  · rw [normalizeSample, le_div_iff₀ (by norm_num : (0:ℚ) < 32768)]
    have h1 : ((-32768 : ℤ) : ℚ) ≤ ((int16OfPair lo hi : ℤ) : ℚ) := by
      exact_mod_cast hb.1
    push_cast at h1
    linarith
  · rw [normalizeSample, div_lt_one (by norm_num : (0:ℚ) < 32768)]
    have := hb.2
    have h2 : (int16OfPair lo hi : ℚ) ≤ 32767 := by exact_mod_cast this
    linarith
  · rw [normalizeSample, div_eq_iff (by norm_num : (32768:ℚ) ≠ 0)]
    constructor
    · intro h
      have : (int16OfPair lo hi : ℚ) = -32768 := by linarith [h]
      exact_mod_cast this
    · intro h
      rw [h]
      norm_num

theorem sample_normalization_witness :
    normalizeSample (int16OfPair 0 128) = -1 ∧ int16OfPair 0 128 = -32768 := by
  have h := sample_normalization 0 128 (by decide) (by decide)
  exact ⟨h.2.2.2.mpr (by decide), by decide⟩

/-! ## Voice recommendation (recommendVoicesFromPrompt, geminiService.ts) -/

/-- The fixed 5-entry voice catalog (`validVoices` in the source). -/
def validVoices : List String := ["Kore", "Puck", "Zephyr", "Charon", "Fenrir"]

/-- Leading- and trailing-whitespace removal on the character sequence
(JavaScript `String.prototype.trim`). -/
def trimChars (l : List Char) : List Char :=
  ((l.dropWhile Char.isWhitespace).reverse.dropWhile Char.isWhitespace).reverse

/-- `String.prototype.split(',')`: splits at every comma, keeping empty
pieces. -/
def splitCommaChars : List Char → List (List Char)
  | [] => [[]]
  | c :: rest =>
    if c = ',' then [] :: splitCommaChars rest
    else
      match splitCommaChars rest with
      | h :: t => (c :: h) :: t
      | [] => [[c]]

/-- The parsing step of `recommendVoicesFromPrompt`: trim the response,
split on commas, trim each piece, keep only catalog members. -/
def parseRecommendation (recommendationString : String) : List String :=
  ((splitCommaChars (trimChars recommendationString.data)).map
      fun cs => String.mk (trimChars cs)).filter
    fun v => decide (v ∈ validVoices)

def matchesAt : List Char → List Char → Bool
  | [], _ => true
  | _ :: _, [] => false
  | p :: ps, c :: cs => p = c && matchesAt ps cs

def containsSeq (text pat : List Char) : Bool :=
  match text with
  | [] => matchesAt pat []
  | _ :: cs => matchesAt pat text || containsSeq cs pat

/-- The regex test `/여성|여자/.test(audioPrompt)` used for the fallback. -/
def hasFemaleMarker (audioPrompt : String) : Bool :=
  containsSeq audioPrompt.data "여성".data || containsSeq audioPrompt.data "여자".data

/-- The deterministic fallback shortlist of `recommendVoicesFromPrompt`. -/
def fallbackVoices (audioPrompt : String) : List String :=
  if hasFemaleMarker audioPrompt then ["Kore"] else ["Puck", "Zephyr", "Charon"]

/-- Embedding of `recommendVoicesFromPrompt` (geminiService.ts).  The
service response is `some text` on success and `none` when the call
throws; the rest of the body is pure. -/
def recommendVoicesFromPrompt (audioPrompt : String) (response : Option String) : List String :=
  match response with
  | some r =>
    let recommendedVoices := parseRecommendation r
    if recommendedVoices.length > 0 then recommendedVoices
    else fallbackVoices audioPrompt
  | none => fallbackVoices audioPrompt

lemma fallbackVoices_ne_nil (p : String) : fallbackVoices p ≠ [] := by
  unfold fallbackVoices
  split <;> simp

lemma fallbackVoices_mem (p : String) : ∀ v ∈ fallbackVoices p, v ∈ validVoices := by
  intro v hv
  unfold fallbackVoices at hv
  split at hv
  · simp at hv
    simp [validVoices, hv]
  · simp at hv
    rcases hv with h | h | h <;> simp [validVoices, h]

lemma parseRecommendation_mem (r : String) :
    ∀ v ∈ parseRecommendation r, v ∈ validVoices := by
  intro v hv
  unfold parseRecommendation at hv
  exact of_decide_eq_true (List.mem_filter.mp hv).2

/-- C4 counterexample: four valid identifiers in the response yield four
entries — the implementation never caps the list at 3. -/
theorem recommendVoices_no_cap :
    (recommendVoicesFromPrompt "portrait" (some "Kore,Puck,Zephyr,Charon")).length = 4 := by
  decide

/-- C4 (amended): the result is never empty, draws only on the catalog,
equals the parsed response (order preserved, no length cap) whenever that
parse is non-empty, and otherwise is exactly the deterministic fallback:
`[Kore]` under a female marker, `[Puck, Zephyr, Charon]` otherwise. -/
theorem recommendVoices_spec (audioPrompt : String) (response : Option String) :
    recommendVoicesFromPrompt audioPrompt response ≠ [] ∧
    (∀ v ∈ recommendVoicesFromPrompt audioPrompt response, v ∈ validVoices) ∧
    (∀ r, response = some r → parseRecommendation r ≠ [] →
      recommendVoicesFromPrompt audioPrompt response = parseRecommendation r) ∧
    ((response = none ∨ ∃ r, response = some r ∧ parseRecommendation r = []) →
      recommendVoicesFromPrompt audioPrompt response =
        if hasFemaleMarker audioPrompt then ["Kore"]
        else ["Puck", "Zephyr", "Charon"]) := by
  cases response with
  | none =>
    refine ⟨fallbackVoices_ne_nil _, fallbackVoices_mem _, ?_, ?_⟩
    · intro r hr
      exact Option.noConfusion hr
    · intro _
      rfl
  | some r =>
    by_cases hp : parseRecommendation r = []
    · have hred : recommendVoicesFromPrompt audioPrompt (some r) = fallbackVoices audioPrompt := by
        simp [recommendVoicesFromPrompt, hp]
      refine ⟨?_, ?_, ?_, ?_⟩
      · rw [hred]; exact fallbackVoices_ne_nil _
      · rw [hred]; exact fallbackVoices_mem _
      · intro r' hr' hne
        injection hr' with h
        exact absurd (h ▸ hp) hne
      · intro _
        rw [hred]
        rfl
    · have hred : recommendVoicesFromPrompt audioPrompt (some r) = parseRecommendation r := by
        have hlen : 0 < (parseRecommendation r).length := List.length_pos.mpr hp
        simp [recommendVoicesFromPrompt, hlen]
      refine ⟨?_, ?_, ?_, ?_⟩
      · rw [hred]; exact hp
      · rw [hred]; exact parseRecommendation_mem r
      · intro r' hr' _
        injection hr' with h
        rw [hred, h]
      · intro h
        rcases h with h | ⟨r', hr', hp'⟩
        · exact Option.noConfusion h
        · injection hr' with h'
          exact absurd (h' ▸ hp') hp

theorem recommendVoices_spec_witness :
    recommendVoicesFromPrompt "여성" none = ["Kore"] := by
  have h := (recommendVoices_spec "여성" none).2.2.2 (Or.inl rfl)
  rw [h]
  decide

/-! ## Workflow controller (App component, types.ts) -/

inductive AppState
  | IDLE
  | GENERATING_IMAGE
  | SELECTING_IMAGE
  | ANALYZING_IMAGE
  | SHOWING_RESULT
  | ERROR
  deriving DecidableEq

inductive PromptType
  | VOICE
  | SOUNDSCAPE
  deriving DecidableEq

structure ImageInfo where
  base64 : String
  mimeType : String
  deriving DecidableEq

/-- The session state owned by the App component: each field is one
`useState` hook of the source. -/
structure AppModel where
  appState : AppState
  generatedImages : List ImageInfo
  selectedImage : Option ImageInfo
  audioPrompt : String
  error : Option String
  loadingMessage : String
  promptType : PromptType
  isSwitchingPrompt : Bool
  lastPrompt : String
  deriving DecidableEq

/-- The initial values of all `useState` hooks. -/
def initialModel : AppModel where
  appState := AppState.IDLE
  generatedImages := []
  selectedImage := none
  audioPrompt := ""
  error := none
  loadingMessage := ""
  promptType := PromptType.VOICE
  isSwitchingPrompt := false
  lastPrompt := ""

/-- `handleError`: store the message and enter the ERROR state. -/
def handleError (message : String) (s : AppModel) : AppModel :=
  { s with error := some message, appState := AppState.ERROR }

/-- `handleGenerateImage`, up to its `await`.  The second component is the
prompt sent to the Generation Service — `none` means no call was issued
(the guard `if (!prompt)` rejected the empty description). -/
def handleGenerateImage (prompt : String) (s : AppModel) : AppModel × Option String :=
  if prompt = "" then
    (handleError "이미지 생성을 위한 설명을 입력해주세요." s, none)
  else
    ({ s with
        lastPrompt := prompt
        appState := AppState.GENERATING_IMAGE
        loadingMessage := "AI가 멋진 이미지를 만들고 있어요..."
        error := none
        generatedImages := []
        selectedImage := none }, some prompt)

/-- The continuation of `handleGenerateImage` once the service resolves
(`Except.ok`) or throws (`Except.error`). -/
def handleGenerateImageResult (res : Except String (List ImageInfo)) (s : AppModel) : AppModel :=
  match res with
  | Except.ok images =>
    { s with generatedImages := images, appState := AppState.SELECTING_IMAGE }
  | Except.error _ => handleError "이미지 생성 중 오류가 발생했습니다." s

/-- `analyzeAndGeneratePrompt`, up to its `await`. -/
def analyzeAndGeneratePrompt (s : AppModel) : AppModel :=
  { s with
      appState := AppState.ANALYZING_IMAGE
      loadingMessage := "이미지를 분석하여 목소리 프롬프트를 생성 중입니다..." }

/-- The continuation of `analyzeAndGeneratePrompt` once the service
resolves or throws. -/
def analyzeAndGeneratePromptResult (res : Except String String) (s : AppModel) : AppModel :=
  match res with
  | Except.ok newAudioPrompt =>
    { s with
        audioPrompt := newAudioPrompt
        promptType := PromptType.VOICE
        appState := AppState.SHOWING_RESULT }
  | Except.error _ => handleError "이미지 분석 중 오류가 발생했습니다." s

/-- `handleImageSelect`: store the pick, then start the analysis. -/
def handleImageSelect (image : ImageInfo) (s : AppModel) : AppModel :=
  analyzeAndGeneratePrompt { s with selectedImage := some image }

/-- `handleReset`: restore every session hook it touches to its initial
value (the source does not touch `isSwitchingPrompt`). -/
def handleReset (s : AppModel) : AppModel :=
  { s with
      appState := AppState.IDLE
      selectedImage := none
      generatedImages := []
      audioPrompt := ""
      error := none
      loadingMessage := ""
      promptType := PromptType.VOICE
      lastPrompt := "" }

/-- `handleSwitchPromptType`, up to its `await`.  The second component is
the prompt kind requested from the Generation Service — `none` means the
guard rejected the call and nothing was mutated. -/
def handleSwitchPromptType (newType : PromptType) (s : AppModel) : AppModel × Option PromptType :=
  if s.selectedImage = none ∨ s.isSwitchingPrompt = true ∨ newType = s.promptType then
    (s, none)
  else
    ({ s with isSwitchingPrompt := true, error := none }, some newType)

/-- The continuation of an accepted `handleSwitchPromptType` call: the
`try` branch on success, the `catch` branch on failure, and the `finally`
release of the guard on both. -/
def handleSwitchPromptTypeResult (newType : PromptType) (res : Except String String)
    (s : AppModel) : AppModel :=
  match res with
  | Except.ok newPrompt =>
    { s with audioPrompt := newPrompt, promptType := newType, isSwitchingPrompt := false }
  | Except.error e =>
    { s with audioPrompt := "프롬프트 생성 중 오류 발생: " ++ e, isSwitchingPrompt := false }

/-- The user-visible triggers and what `renderContent` exposes in each
state: in ERROR only the reset button is rendered. -/
inductive Trigger
  | generateSubmit (d : String)
  | imageUpload
  | selectImage (i : ImageInfo)
  | regenerate
  | reset
  | switchPrompt (k : PromptType)
  deriving DecidableEq

def availableTriggers : AppState → Trigger → Bool
  | AppState.IDLE, Trigger.generateSubmit _ => true
  | AppState.IDLE, Trigger.imageUpload => true
  | AppState.SELECTING_IMAGE, Trigger.selectImage _ => true
  | AppState.SELECTING_IMAGE, Trigger.regenerate => true
  | AppState.SHOWING_RESULT, Trigger.reset => true
  | AppState.SHOWING_RESULT, Trigger.switchPrompt _ => true
  | AppState.ERROR, Trigger.reset => true
  | _, _ => false

/-- C3: the full workflow scenario — submit a non-empty description,
receive images, select one, receive the prompt, then reset; each phase
lands in the claimed state and reset restores every listed session field
to its initial value. -/
theorem workflow_scenario (d : String) (hd : d ≠ "") (imgs : List ImageInfo)
    (hi : imgs ≠ []) (img : ImageInfo) (p : String) :
    let s1 := (handleGenerateImage d initialModel).1
    let s2 := handleGenerateImageResult (Except.ok imgs) s1
    let s3 := handleImageSelect img s2
    let s4 := analyzeAndGeneratePromptResult (Except.ok p) s3
    let s5 := handleReset s4
    (handleGenerateImage d initialModel).2 = some d ∧
    s1.appState = AppState.GENERATING_IMAGE ∧
    s2.appState = AppState.SELECTING_IMAGE ∧ s2.generatedImages = imgs ∧
    s3.appState = AppState.ANALYZING_IMAGE ∧ s3.selectedImage = some img ∧
    s4.appState = AppState.SHOWING_RESULT ∧ s4.audioPrompt = p ∧
    s4.promptType = PromptType.VOICE ∧
    s5.appState = AppState.IDLE ∧
    s5.generatedImages = initialModel.generatedImages ∧
    s5.selectedImage = initialModel.selectedImage ∧
    s5.audioPrompt = initialModel.audioPrompt ∧
    s5.error = initialModel.error ∧
    s5.lastPrompt = initialModel.lastPrompt ∧
    s5.promptType = initialModel.promptType := by
  simp [handleGenerateImage, hd, handleGenerateImageResult, handleImageSelect,
    analyzeAndGeneratePrompt, analyzeAndGeneratePromptResult, handleReset,
    handleError, initialModel]

theorem workflow_scenario_witness :
    (handleGenerateImage "a quiet cat by a window" initialModel).1.appState =
      AppState.GENERATING_IMAGE ∧
    (handleReset (analyzeAndGeneratePromptResult (Except.ok "...")
        (handleImageSelect ⟨"img2", "image/png"⟩
          (handleGenerateImageResult
            (Except.ok [⟨"img1", "image/png"⟩, ⟨"img2", "image/png"⟩, ⟨"img3", "image/png"⟩])
            (handleGenerateImage "a quiet cat by a window" initialModel).1)))).appState =
      AppState.IDLE := by
  have h := workflow_scenario "a quiet cat by a window" (by decide)
    [⟨"img1", "image/png"⟩, ⟨"img2", "image/png"⟩, ⟨"img3", "image/png"⟩] (by decide)
    ⟨"img2", "image/png"⟩ "..."
  exact ⟨h.2.1, h.2.2.2.2.2.2.2.2.2.1⟩

/-- C7: a prompt-kind switch requested while one is in flight, or whose
target equals the current kind, is rejected — no service call is issued
and the session state is returned unchanged. -/
theorem handleSwitchPromptType_reject (newType : PromptType) (s : AppModel)
    (h : s.isSwitchingPrompt = true ∨ newType = s.promptType) :
    handleSwitchPromptType newType s = (s, none) := by
  unfold handleSwitchPromptType
  rcases h with h | h
  · rw [if_pos (Or.inr (Or.inl h))]
  · rw [if_pos (Or.inr (Or.inr h))]

theorem handleSwitchPromptType_reject_witness :
    handleSwitchPromptType PromptType.VOICE
        { initialModel with isSwitchingPrompt := true } =
      ({ initialModel with isSwitchingPrompt := true }, none) :=
  handleSwitchPromptType_reject PromptType.VOICE
    { initialModel with isSwitchingPrompt := true } (Or.inl rfl)

/-- C8: an accepted switch raises the `isSwitching` guard; on service
failure the displayed text becomes the locally formatted error string
while the kind keeps its previous value; and the guard is released on
both exit paths of the `finally`. -/
theorem handleSwitchPromptType_failure (newType : PromptType) (s : AppModel)
    (hsel : s.selectedImage ≠ none) (hsw : s.isSwitchingPrompt = false)
    (hne : newType ≠ s.promptType) :
    (handleSwitchPromptType newType s).2 = some newType ∧
    (handleSwitchPromptType newType s).1.isSwitchingPrompt = true ∧
    (∀ e,
      (handleSwitchPromptTypeResult newType (Except.error e)
          (handleSwitchPromptType newType s).1).audioPrompt =
        "프롬프트 생성 중 오류 발생: " ++ e ∧
      (handleSwitchPromptTypeResult newType (Except.error e)
          (handleSwitchPromptType newType s).1).promptType = s.promptType ∧
      (handleSwitchPromptTypeResult newType (Except.error e)
          (handleSwitchPromptType newType s).1).isSwitchingPrompt = false) ∧
    (∀ p,
      (handleSwitchPromptTypeResult newType (Except.ok p)
          (handleSwitchPromptType newType s).1).isSwitchingPrompt = false) := by
  have hcond : ¬(s.selectedImage = none ∨ s.isSwitchingPrompt = true ∨
      newType = s.promptType) := by
    push_neg
    exact ⟨hsel, by simp [hsw], hne⟩
  unfold handleSwitchPromptType
  rw [if_neg hcond]
  refine ⟨rfl, rfl, ?_, ?_⟩
  · intro e
    exact ⟨rfl, rfl, rfl⟩
  · intro p
    rfl

theorem handleSwitchPromptType_failure_witness :
    (handleSwitchPromptTypeResult PromptType.SOUNDSCAPE (Except.error "boom")
        (handleSwitchPromptType PromptType.SOUNDSCAPE
          { initialModel with selectedImage := some ⟨"b", "image/png"⟩ }).1).audioPrompt =
      "프롬프트 생성 중 오류 발생: " ++ "boom" := by
  have h := handleSwitchPromptType_failure PromptType.SOUNDSCAPE
    { initialModel with selectedImage := some ⟨"b", "image/png"⟩ }
    (by simp [initialModel]) rfl (by decide)
  exact (h.2.2.1 "boom").1

/-- C9: a failed image-generation call enters ERROR with the message
stored, the ERROR screen exposes only the reset trigger, and reset yields
IDLE with the image set, the selected image and the prompt cleared. -/
theorem image_generation_failure_reset (s : AppModel) (e : String) :
    (handleGenerateImageResult (Except.error e) s).appState = AppState.ERROR ∧
    (handleGenerateImageResult (Except.error e) s).error =
      some "이미지 생성 중 오류가 발생했습니다." ∧
    (∀ t, availableTriggers AppState.ERROR t = true → t = Trigger.reset) ∧
    (handleReset s).appState = AppState.IDLE ∧
    (handleReset s).generatedImages = [] ∧
    (handleReset s).selectedImage = none ∧
    (handleReset s).audioPrompt = "" := by
  refine ⟨rfl, rfl, ?_, rfl, rfl, rfl, rfl⟩
  intro t ht
  cases t <;> simp_all [availableTriggers]

theorem image_generation_failure_reset_witness :
    (handleGenerateImageResult (Except.error "boom") initialModel).appState =
      AppState.ERROR ∧
    Trigger.reset = Trigger.reset := by
  have h := image_generation_failure_reset initialModel "boom"
  exact ⟨h.1, h.2.2.1 Trigger.reset (by decide)⟩

/-- C10: submitting an empty description moves the workflow to ERROR with
a message stored, issues no Generation Service call, and does not record
the description for regeneration. -/
theorem empty_description_rejected (s : AppModel) :
    (handleGenerateImage "" s).1.appState = AppState.ERROR ∧
    (handleGenerateImage "" s).1.error =
      some "이미지 생성을 위한 설명을 입력해주세요." ∧
    (handleGenerateImage "" s).2 = none ∧
    (handleGenerateImage "" s).1.lastPrompt = s.lastPrompt ∧
    (handleGenerateImage "" s).1.appState ≠ AppState.IDLE := by
  refine ⟨rfl, rfl, rfl, rfl, by simp [handleGenerateImage, handleError]⟩

/-! ## Playback controller (handlePlayAudio / playDecodedAudio, ResultDisplay.tsx) -/

/-- Playback-relevant state of the ResultDisplay component together with
bookkeeping for the audio graph: `live` lists the started sources
currently producing sound, `allocated` the started sources whose
`onended` callback has not yet fired, `nextId` supplies fresh source
identities, and `pendingSpeech` records an outstanding `generateSpeech`
call (the `await` suspension point of `handlePlayAudio`). -/
structure PlayerModel where
  isGeneratingAudio : Bool
  isPlayingAudio : Bool
  generatedAudioData : Option String
  audioError : Option String
  activeAudioSourceRef : Option Nat
  pendingSpeech : Bool
  live : List Nat
  allocated : List Nat
  nextId : Nat
  deriving DecidableEq

/-- The component's initial hook values, with no source in the graph. -/
def initPlayer : PlayerModel where
  isGeneratingAudio := false
  isPlayingAudio := false
  generatedAudioData := none
  audioError := none
  activeAudioSourceRef := none
  pendingSpeech := false
  live := []
  allocated := []
  nextId := 0

/-- `playDecodedAudio`: build a buffer source, store it in
`activeAudioSourceRef`, start it, flag PLAYING.  (The decode `await`
inside it is guarded by `isGeneratingAudio` exactly like the speech
call, so the body is modelled as one step.) -/
def playDecodedAudio (m : PlayerModel) : PlayerModel :=
  { m with
      activeAudioSourceRef := some m.nextId
      live := m.live ++ [m.nextId]
      allocated := m.allocated ++ [m.nextId]
      isPlayingAudio := true
      nextId := m.nextId + 1 }

/-- The events that can reach the controller: a click on the play/stop
button, resolution or rejection of the outstanding `generateSpeech`
call, and the `onended` callback of a started source (fired once, after
`stop()` or at natural end of stream). -/
inductive AudioEvent
  | press
  | speechOk (data : String)
  | speechErr (msg : String)
  | ended (s : Nat)
  deriving DecidableEq

/-- One step of the playback controller (`handlePlayAudio` and the
callbacks it installs).  A press with a live ref calls `stop()` and
returns; an idle press with cached audio plays it; an idle press without
cached audio issues the speech call; `onended` clears the flag and the
ref. -/
def audioStep (e : AudioEvent) (m : PlayerModel) : PlayerModel :=
  match e with
  | AudioEvent.press =>
    match m.activeAudioSourceRef with
    | some s => { m with live := m.live.erase s }
    | none =>
      if m.isGeneratingAudio then m
      else
        match m.generatedAudioData with
        | none =>
          { m with isGeneratingAudio := true, audioError := none, pendingSpeech := true }
        | some _ =>
          { playDecodedAudio { m with audioError := none } with isGeneratingAudio := false }
  | AudioEvent.speechOk data =>
    if m.pendingSpeech then
      { playDecodedAudio
          { m with pendingSpeech := false, generatedAudioData := some data } with
          isGeneratingAudio := false }
    else m
  | AudioEvent.speechErr msg =>
    if m.pendingSpeech then
      { m with
          pendingSpeech := false
          audioError := some msg
          isPlayingAudio := false
          activeAudioSourceRef := none
          isGeneratingAudio := false }
    else m
  | AudioEvent.ended s =>
    if s ∈ m.allocated then
      { m with
          allocated := m.allocated.erase s
          live := m.live.erase s
          isPlayingAudio := false
          activeAudioSourceRef := none }
    else m

/-- All states reachable from the initial component state under any
interleaving of presses, service resolutions and `onended` callbacks. -/
def runAudio (es : List AudioEvent) : PlayerModel :=
  es.foldl (fun m e => audioStep e m) initPlayer

/-- The mutual-exclusion invariant: the ref tracks the single allocated
source, at most one source is live, and an outstanding speech call can
only exist while idle and flagged generating. -/
def PlayerInv (m : PlayerModel) : Prop :=
  (m.activeAudioSourceRef = none → m.allocated = [] ∧ m.live = []) ∧
  (∀ s, m.activeAudioSourceRef = some s →
    m.allocated = [s] ∧ (m.live = [] ∨ m.live = [s])) ∧
  (m.pendingSpeech = true →
    m.activeAudioSourceRef = none ∧ m.isGeneratingAudio = true)

lemma playerInv_init : PlayerInv initPlayer := by
  refine ⟨fun _ => ⟨rfl, rfl⟩, ?_, ?_⟩
  · intro s h
    exact Option.noConfusion h
  · intro h
    exact ⟨rfl, Bool.noConfusion h⟩


lemma audioStep_press_stop (m : PlayerModel) (s : Nat)
    (h : m.activeAudioSourceRef = some s) :
    audioStep AudioEvent.press m = { m with live := m.live.erase s } := by
  unfold audioStep
  rw [h]

lemma audioStep_press_busy (m : PlayerModel)
    (h : m.activeAudioSourceRef = none) (hg : m.isGeneratingAudio = true) :
    audioStep AudioEvent.press m = m := by
  unfold audioStep
  rw [h]
  simp [hg]

lemma audioStep_press_generate (m : PlayerModel)
    (h : m.activeAudioSourceRef = none) (hg : m.isGeneratingAudio = false)
    (hd : m.generatedAudioData = none) :
    audioStep AudioEvent.press m =
      { m with isGeneratingAudio := true, audioError := none, pendingSpeech := true } := by
  unfold audioStep
  rw [h]
  simp [hg, hd]

lemma audioStep_press_cached (m : PlayerModel) (d : String)
    (h : m.activeAudioSourceRef = none) (hg : m.isGeneratingAudio = false)
    (hd : m.generatedAudioData = some d) :
    audioStep AudioEvent.press m =
      { playDecodedAudio { m with audioError := none } with isGeneratingAudio := false } := by
  unfold audioStep
  rw [h]
  simp [hg, hd, playDecodedAudio]

lemma audioStep_speechOk_pending (m : PlayerModel) (data : String)
    (hp : m.pendingSpeech = true) :
    audioStep (AudioEvent.speechOk data) m =
      { playDecodedAudio
          { m with pendingSpeech := false, generatedAudioData := some data } with
          isGeneratingAudio := false } := by
  unfold audioStep
  simp [hp]

lemma audioStep_speechOk_idle (m : PlayerModel) (data : String)
    (hp : m.pendingSpeech = false) :
    audioStep (AudioEvent.speechOk data) m = m := by
  unfold audioStep
  simp [hp]

lemma audioStep_speechErr_pending (m : PlayerModel) (msg : String)
    (hp : m.pendingSpeech = true) :
    audioStep (AudioEvent.speechErr msg) m =
      { m with
          pendingSpeech := false
          audioError := some msg
          isPlayingAudio := false
          activeAudioSourceRef := none
          isGeneratingAudio := false } := by
  unfold audioStep
  simp [hp]

lemma audioStep_speechErr_idle (m : PlayerModel) (msg : String)
    (hp : m.pendingSpeech = false) :
    audioStep (AudioEvent.speechErr msg) m = m := by
  unfold audioStep
  simp [hp]

lemma audioStep_ended_mem (m : PlayerModel) (s : Nat) (hs : s ∈ m.allocated) :
    audioStep (AudioEvent.ended s) m =
      { m with
          allocated := m.allocated.erase s
          live := m.live.erase s
          isPlayingAudio := false
          activeAudioSourceRef := none } := by
  unfold audioStep
  simp [hs]

lemma audioStep_ended_not_mem (m : PlayerModel) (s : Nat) (hs : s ∉ m.allocated) :
    audioStep (AudioEvent.ended s) m = m := by
  unfold audioStep
  simp [hs]

lemma playerInv_step (e : AudioEvent) (m : PlayerModel) (h : PlayerInv m) :
    PlayerInv (audioStep e m) := by
  obtain ⟨h1, h2, h3⟩ := h
  cases e with
  | press =>
    cases href : m.activeAudioSourceRef with
    | some s =>
      obtain ⟨hal, hlv⟩ := h2 s href
      rw [audioStep_press_stop m s href]
      refine ⟨?_, ?_, ?_⟩
      · intro hc
        have hc' : m.activeAudioSourceRef = none := hc
        rw [href] at hc'
        exact Option.noConfusion hc'
      · intro t ht
        have ht' : m.activeAudioSourceRef = some t := ht
        rw [href] at ht'
        injection ht' with ht'
        subst ht'
        refine ⟨hal, Or.inl ?_⟩
        show m.live.erase s = []
        rcases hlv with hl | hl <;> rw [hl] <;> simp
      · intro hp
        have hp' : m.pendingSpeech = true := hp
        have hc := (h3 hp').1
        rw [href] at hc
        exact Option.noConfusion hc
    | none =>
      obtain ⟨hal, hlv⟩ := h1 href
      cases hg : m.isGeneratingAudio with
      | true =>
        rw [audioStep_press_busy m href hg]
        exact ⟨h1, h2, h3⟩
      | false =>
        cases hdata : m.generatedAudioData with
        | none =>
          rw [audioStep_press_generate m href hg hdata]
          refine ⟨fun _ => ⟨hal, hlv⟩, ?_, fun _ => ⟨href, rfl⟩⟩
          intro t ht
          have ht' : m.activeAudioSourceRef = some t := ht
          rw [href] at ht'
          exact Option.noConfusion ht'
        | some d =>
          rw [audioStep_press_cached m d href hg hdata]
          refine ⟨?_, ?_, ?_⟩
          · intro hc
            exact Option.noConfusion hc
          · intro t ht
            have ht' : some m.nextId = some t := ht
            injection ht' with ht'
            subst ht'
            refine ⟨?_, Or.inr ?_⟩
            · show m.allocated ++ [m.nextId] = [m.nextId]
              rw [hal]
              rfl
            · show m.live ++ [m.nextId] = [m.nextId]
              rw [hlv]
              rfl
          · intro hp
            have hp' : m.pendingSpeech = true := hp
            have hgen := (h3 hp').2
            rw [hg] at hgen
            exact Bool.noConfusion hgen
  | speechOk data =>
    cases hp : m.pendingSpeech with
    | false =>
      rw [audioStep_speechOk_idle m data hp]
      exact ⟨h1, h2, h3⟩
    | true =>
      obtain ⟨href, _⟩ := h3 hp
      obtain ⟨hal, hlv⟩ := h1 href
      rw [audioStep_speechOk_pending m data hp]
      refine ⟨?_, ?_, ?_⟩
      · intro hc
        exact Option.noConfusion hc
      · intro t ht
        have ht' : some m.nextId = some t := ht
        injection ht' with ht'
        subst ht'
        refine ⟨?_, Or.inr ?_⟩
        · show m.allocated ++ [m.nextId] = [m.nextId]
          rw [hal]
          rfl
        · show m.live ++ [m.nextId] = [m.nextId]
          rw [hlv]
          rfl
      · intro hc
        exact Bool.noConfusion hc
  | speechErr msg =>
    cases hp : m.pendingSpeech with
    | false =>
      rw [audioStep_speechErr_idle m msg hp]
      exact ⟨h1, h2, h3⟩
    | true =>
      obtain ⟨href, _⟩ := h3 hp
      obtain ⟨hal, hlv⟩ := h1 href
      rw [audioStep_speechErr_pending m msg hp]
      refine ⟨fun _ => ⟨hal, hlv⟩, ?_, ?_⟩
      · intro t ht
        exact Option.noConfusion ht
      · intro hc
        exact Bool.noConfusion hc
  | ended s =>
    by_cases hs : s ∈ m.allocated
    · rw [audioStep_ended_mem m s hs]
      cases href : m.activeAudioSourceRef with
      | none =>
        obtain ⟨hal, _⟩ := h1 href
        rw [hal] at hs
        exact absurd hs (List.not_mem_nil s)
      | some t =>
        obtain ⟨hal, hlv⟩ := h2 t href
        have hst : s = t := by
          rw [hal] at hs
          simpa using hs
        subst hst
        refine ⟨?_, ?_, ?_⟩
        · intro _
          constructor
          · show m.allocated.erase s = []
            rw [hal]
            simp
          · show m.live.erase s = []
            rcases hlv with hl | hl <;> rw [hl] <;> simp
        · intro u hu
          exact Option.noConfusion hu
        · intro hp
          have hp' : m.pendingSpeech = true := hp
          have hc := (h3 hp').1
          rw [href] at hc
          exact Option.noConfusion hc
    · rw [audioStep_ended_not_mem m s hs]
      exact ⟨h1, h2, h3⟩

lemma playerInv_runAudio (es : List AudioEvent) : PlayerInv (runAudio es) := by
  have h : ∀ (l : List AudioEvent) (m : PlayerModel), PlayerInv m →
      PlayerInv (l.foldl (fun m e => audioStep e m) m) := by
    intro l
    induction l with
    | nil => intro m hm; exact hm
    | cons e rest ih =>
      intro m hm
      exact ih _ (playerInv_step e m hm)
  exact h es initPlayer playerInv_init

lemma playerInv_live_le_one (m : PlayerModel) (h : PlayerInv m) :
    m.live.length ≤ 1 := by
  obtain ⟨h1, h2, _⟩ := h
  cases href : m.activeAudioSourceRef with
  | none => simp [(h1 href).2]
  | some s =>
    rcases (h2 s href).2 with hl | hl <;> simp [hl]

lemma press_toggle_general (m : PlayerModel) (h : PlayerInv m) :
    m.live.length ≤ 1 ∧
    (∀ s, m.activeAudioSourceRef = some s →
      (audioStep AudioEvent.press m).live = [] ∧
      (audioStep AudioEvent.press m).allocated = m.allocated ∧
      (audioStep AudioEvent.press m).nextId = m.nextId) ∧
    (∀ d, m.activeAudioSourceRef = none →
      m.isGeneratingAudio = false →
      m.generatedAudioData = some d →
      (audioStep AudioEvent.press m).isPlayingAudio = true ∧
      (audioStep AudioEvent.press m).live.length = 1 ∧
      (audioStep AudioEvent.press (audioStep AudioEvent.press m)).live = []) := by
  obtain ⟨h1, h2, h3⟩ := h
  refine ⟨playerInv_live_le_one m ⟨h1, h2, h3⟩, ?_, ?_⟩
  · intro s hs
    rw [audioStep_press_stop m s hs]
    obtain ⟨_, hlv⟩ := h2 s hs
    refine ⟨?_, rfl, rfl⟩
    show m.live.erase s = []
    rcases hlv with hl | hl <;> rw [hl] <;> simp
  · intro d href hgen hdata
    obtain ⟨hal, hlv⟩ := h1 href
    rw [audioStep_press_cached m d href hgen hdata]
    refine ⟨rfl, ?_, ?_⟩
    · show (m.live ++ [m.nextId]).length = 1
      rw [hlv]
      rfl
    · have href2 : ({ playDecodedAudio { m with audioError := none } with
          isGeneratingAudio := false } : PlayerModel).activeAudioSourceRef =
            some m.nextId := rfl
      rw [audioStep_press_stop _ _ href2]
      show (m.live ++ [m.nextId]).erase m.nextId = []
      rw [hlv]
      simp

/-- C2: over every interleaving of presses, service resolutions and
`onended` callbacks, at most one source is ever live; a press while a
source ref is live stops it and allocates nothing new; a press while idle
with cached audio starts playback (PLAYING), and a further press before
natural end silences it again (IDLE, no live source). -/
theorem handlePlayAudio_single_source (es : List AudioEvent) :
    (runAudio es).live.length ≤ 1 ∧
    (∀ s, (runAudio es).activeAudioSourceRef = some s →
      (audioStep AudioEvent.press (runAudio es)).live = [] ∧
      (audioStep AudioEvent.press (runAudio es)).allocated = (runAudio es).allocated ∧
      (audioStep AudioEvent.press (runAudio es)).nextId = (runAudio es).nextId) ∧
    (∀ d, (runAudio es).activeAudioSourceRef = none →
      (runAudio es).isGeneratingAudio = false →
      (runAudio es).generatedAudioData = some d →
      (audioStep AudioEvent.press (runAudio es)).isPlayingAudio = true ∧
      (audioStep AudioEvent.press (runAudio es)).live.length = 1 ∧
      (audioStep AudioEvent.press
        (audioStep AudioEvent.press (runAudio es))).live = []) :=
  press_toggle_general (runAudio es) (playerInv_runAudio es)

theorem handlePlayAudio_single_source_witness :
    (runAudio [AudioEvent.press, AudioEvent.speechOk "d"]).activeAudioSourceRef =
      some 0 ∧
    (audioStep AudioEvent.press
      (runAudio [AudioEvent.press, AudioEvent.speechOk "d"])).live = [] := by
  refine ⟨by decide, ?_⟩
  exact ((handlePlayAudio_single_source [AudioEvent.press, AudioEvent.speechOk "d"]).2.1
    0 (by decide)).1
